import Mathlib

/-!
Shallow embedding of the WeatherServer forecast resolution subsystem
(`src/forecast/mod.rs`, `src/forecast/available_services.rs`,
`src/forecast/forecast_services/{openweathermap,weatherapi}.rs`,
`src/weather_service_impl.rs`).

Machine floats (`f32`/`f64` temperature and coordinate fields) carry no
arithmetic in the source — they are only copied and rendered — so they are
modelled as exact rationals / exact decimals.  Stateful I/O (the single
outbound HTTP GET and the URL validity check of `reqwest::Url::parse`) is
modelled by passing the exchange outcome in as explicit function arguments.
-/

/-- Outcome of a Rust computation: a returned `Ok` value, a returned `Err`
value, or a thread abort (`panic!` / `unwrap` on `None` / out-of-bounds
indexing) carrying the panic message. -/
inductive RustResult (ε α : Type) where
  | ok (value : α) : RustResult ε α
  | err (error : ε) : RustResult ε α
  | fatal (msg : String) : RustResult ε α
  deriving DecidableEq, Repr

/-- Error codes of `forecast::ErrorCode` (src/forecast/mod.rs). -/
inductive ErrorCode where
  | Internal
  | InvalidArgument
  deriving DecidableEq, Repr

/-- The `forecast::Error` struct (src/forecast/mod.rs): an error code plus a
human-readable description. -/
structure Error where
  code : ErrorCode
  description : String
  deriving DecidableEq, Repr

/-- Modelled from the spec: the `WeatherForecast` message of the
`weather_service_rpc` crate (not under src/), the normalized per-day
forecast `{ timestamp, min_temp, max_temp, avg_temp, condition }`.
The `f32` temperature fields are modelled as exact rationals, since the
source only copies them. -/
structure WeatherForecast where
  dt : Int
  min_t : Rat
  max_t : Rat
  avg_t : Rat
  condition : String
  deriving DecidableEq, Repr

/-- An exact decimal number `mantissa / 10 ^ exponent`, modelling the `f64`
coordinate fields of `Location`, on which the source performs no arithmetic
at all — it only renders them with Rust's `Display`. -/
structure Decimal where
  mantissa : Int
  exponent : Nat
  deriving DecidableEq, Repr

/-- Strips factors of ten from the mantissa into the exponent, so that the
rendered decimal is the canonical shortest form (Rust's float `Display`
prints the shortest decimal that round-trips, e.g. `2.2`, never `2.200000`). -/
def Decimal.stripZeros : Int → Nat → Int × Nat
  | m, 0 => (m, 0)
  | m, e + 1 => if m % 10 = 0 then Decimal.stripZeros (m / 10) e else (m, e + 1)

/-- Renders a decimal the way Rust's `Display` renders the corresponding
float value for simple decimals: minimal digits, no trailing fractional
zeros, no decimal point for integral values. -/
def Decimal.render (x : Decimal) : String :=
  if x.mantissa = 0 then "0"
  else
    let p := Decimal.stripZeros x.mantissa x.exponent
    let sign := if p.1 < 0 then "-" else ""
    let digits := toString p.1.natAbs
    if p.2 = 0 then sign ++ digits
    else
      let digits :=
        if digits.length ≤ p.2 then
          String.mk (List.replicate (p.2 + 1 - digits.length) '0') ++ digits
        else digits
      sign ++ digits.take (digits.length - p.2) ++ "." ++ digits.drop (digits.length - p.2)

/-- Modelled from the spec: the `Location` message of the
`weather_service_rpc` crate (not under src/):
`{ name, state, country, lat, lon }` with float coordinates. -/
structure Location where
  name : String
  state : String
  country : String
  lat : Decimal
  lon : Decimal
  deriving DecidableEq, Repr

/-- JSON values, the abstract syntax produced by `serde_json` from a reply
body.  Numbers are modelled as exact rationals. -/
inductive Json where
  | null : Json
  | bool (b : Bool) : Json
  | num (q : Rat) : Json
  | str (s : String) : Json
  | arr (items : List Json) : Json
  | obj (fields : List (String × Json)) : Json

/-- An HTTP response body: its raw text (used verbatim in error messages)
together with its parse as JSON (`none` when the text is not valid JSON).
The JSON text parser itself is abstracted: the two views are supplied
jointly. -/
structure HttpBody where
  text : String
  json : Option Json

/-- Outcome of the single outbound HTTP GET of
`reqwest::Client::new().get(url).send()`: either a response with a status
code and a body, or a transport-level failure carrying the error text
(connection refused, DNS failure, timeout). -/
inductive TransportResult where
  | response (status : Nat) (body : HttpBody) : TransportResult
  | failure (errText : String) : TransportResult

/-- Field lookup on a JSON object (first occurrence), `none` on non-objects
or missing fields — a missing field is a serde deserialization error. -/
def Json.getField (j : Json) (key : String) : Option Json :=
  match j with
  | Json.obj fields => fields.lookup key
  | _ => none

/-- Deserializing a JSON value into a Rust `String` field: anything but a
JSON string is a serde type error. -/
def Json.asString : Json → Option String
  | Json.str s => some s
  | _ => none

/-- Deserializing a JSON value into a Rust `f32` field: any JSON number is
accepted (kept exact), anything else is a serde type error. -/
def Json.asF32 : Json → Option Rat
  | Json.num q => some q
  | _ => none

/-- Deserializing a JSON value into a Rust `i64` field: the number must be
an integer in the `i64` range, anything else is a serde type error. -/
def Json.asI64 : Json → Option Int
  | Json.num q => if q.den = 1 ∧ -(2 ^ 63) ≤ q.num ∧ q.num < 2 ^ 63 then some q.num else none
  | _ => none

/-- Deserializing a JSON value into a Rust `Vec` field: anything but a JSON
array is a serde type error. -/
def Json.asArray : Json → Option (List Json)
  | Json.arr items => some items
  | _ => none

/-- A proleptic Gregorian calendar date, modelling `chrono::NaiveDate`. -/
structure NaiveDate where
  year : Int
  month : Nat
  day : Nat
  deriving DecidableEq, Repr

/-- Minimum year representable by `chrono::NaiveDate` (`i32::MIN >> 13`). -/
def NaiveDate.MIN_YEAR : Int := -262144

/-- Maximum year representable by `chrono::NaiveDate` (`i32::MAX >> 13`). -/
def NaiveDate.MAX_YEAR : Int := 262143

/-- Gregorian leap-year rule, as used by chrono's calendar arithmetic. -/
def NaiveDate.isLeapYear (y : Int) : Bool :=
  y % 4 = 0 ∧ (y % 100 ≠ 0 ∨ y % 400 = 0)

/-- Number of days in the given month of the given year. -/
def NaiveDate.daysInMonth (y : Int) (m : Nat) : Nat :=
  if m = 2 then (if NaiveDate.isLeapYear y then 29 else 28)
  else if m = 4 ∨ m = 6 ∨ m = 9 ∨ m = 11 then 30
  else 31

/-- Models `chrono::NaiveDate::from_ymd_opt`: a date is built only when the
year is in chrono's representable range, the month is 1–12 and the day is
valid for that month. -/
def NaiveDate.from_ymd (y : Int) (m d : Nat) : Option NaiveDate :=
  if NaiveDate.MIN_YEAR ≤ y ∧ y ≤ NaiveDate.MAX_YEAR ∧
     1 ≤ m ∧ m ≤ 12 ∧ 1 ≤ d ∧ d ≤ NaiveDate.daysInMonth y m then
    some ⟨y, m, d⟩
  else none

/-- Splits off up to `max` (at least zero) leading ASCII digits of a
character list, returning the digits and the rest, modelling chrono's
greedy digit scanner `scan::number`. -/
def scanDigits : Nat → List Char → List Char × List Char
  | 0, cs => ([], cs)
  | _ + 1, [] => ([], [])
  | n + 1, c :: cs =>
    if c.isDigit then
      let p := scanDigits n cs
      (c :: p.1, p.2)
    else ([], c :: cs)

/-- Numeric value of a list of ASCII digits. -/
def digitsVal (ds : List Char) : Int :=
  ds.foldl (fun acc c => acc * 10 + ((c.toNat : Int) - 48)) 0

/-- Models chrono's `scan::number(s, 1, max)`: consumes one to `max` leading
digits greedily; fails when no digit is present or the value overflows
`i64`. -/
def scan_number (max : Nat) (cs : List Char) : Option (Int × List Char) :=
  let p := scanDigits max cs
  if p.1.isEmpty then none
  else if digitsVal p.1 < 2 ^ 63 then some (digitsVal p.1, p.2) else none

/-- Models chrono's parsing of the `%Y` item: an optional leading sign
followed by digits (at most four digits when unsigned, unbounded when
signed). -/
def scan_year : List Char → Option (Int × List Char)
  | '-' :: rest => (scan_number rest.length rest).map (fun p => (-p.1, p.2))
  | '+' :: rest => scan_number rest.length rest
  | cs => scan_number 4 cs

/-- Models `chrono::NaiveDate::parse_from_str(s, "%m.%d.%Y")`:
month (1–2 digits), literal dot, day (1–2 digits), literal dot, year
(signed, up to 4 digits when unsigned), with leading whitespace skipped
before each numeric item (chrono trims before numerics, never before
literals), the whole input consumed, and the resulting year/month/day
validated as a calendar date. -/
def NaiveDate.parse_mm_dd_yyyy (s : String) : Option NaiveDate :=
  let cs0 := s.toList.dropWhile Char.isWhitespace
  match scan_number 2 cs0 with
  | none => none
  | some (m, cs1) =>
    match cs1 with
    | '.' :: cs2 =>
      let cs2t := cs2.dropWhile Char.isWhitespace
      match scan_number 2 cs2t with
      | none => none
      | some (d, cs3) =>
        match cs3 with
        | '.' :: cs4 =>
          let cs4t := cs4.dropWhile Char.isWhitespace
          match scan_year cs4t with
          | none => none
          | some (y, cs5) =>
            if cs5.isEmpty then NaiveDate.from_ymd y m.toNat d.toNat else none
        | _ => none
    | _ => none

/-- Epoch day number of a calendar date (days since 1970-01-01), the
standard civil-from-days inverse used by chrono's internal date↔day-number
correspondence. -/
def NaiveDate.daysFromCivil (date : NaiveDate) : Int :=
  let m : Int := date.month
  let d : Int := date.day
  let y : Int := if m ≤ 2 then date.year - 1 else date.year
  let era : Int := y.ediv 400
  let yoe : Int := y - era * 400
  let mp : Int := if 2 < m then m - 3 else m + 9
  let doy : Int := (153 * mp + 2).ediv 5 + d - 1
  let doe : Int := yoe * 365 + yoe.ediv 4 - yoe.ediv 100 + doy
  era * 146097 + doe - 719468

/-- Models the date comparison inside the selection predicate of
`WeatherForecaster::get_weather` (src/forecast/mod.rs line 91) for a
timestamp that `from_timestamp` accepts:
`chrono::NaiveDateTime::from_timestamp(item.dt, 0).date() == requested_date`.
`from_timestamp` floors the epoch seconds to an epoch day number, and two
`NaiveDate`s are equal exactly when their epoch day numbers are equal.
The range check (and panic) of `from_timestamp` itself is modelled in
`find_forecast_for_date` below. -/
def forecast_date_matches (dt : Int) (date : NaiveDate) : Bool :=
  dt.ediv 86400 = date.daysFromCivil

/-- Epoch day number of the earliest `chrono::NaiveDate`
(January 1 of `MIN_YEAR`). -/
def NaiveDate.MIN_EPOCH_DAY : Int :=
  NaiveDate.daysFromCivil ⟨NaiveDate.MIN_YEAR, 1, 1⟩

/-- Epoch day number of the latest `chrono::NaiveDate`
(December 31 of `MAX_YEAR`). -/
def NaiveDate.MAX_EPOCH_DAY : Int :=
  NaiveDate.daysFromCivil ⟨NaiveDate.MAX_YEAR, 12, 31⟩

/-- Whether `chrono::NaiveDateTime::from_timestamp(dt, 0)` succeeds: the
floored epoch day must fall on a representable `NaiveDate`.  Outside this
range `from_timestamp` panics ("invalid or out-of-range datetime"). -/
def timestamp_in_range (dt : Int) : Bool :=
  NaiveDate.MIN_EPOCH_DAY ≤ dt.ediv 86400 ∧ dt.ediv 86400 ≤ NaiveDate.MAX_EPOCH_DAY

/-- Outcome of the orchestrator's position-search over the forecast
sequence: the first matching entry, no match at all, or the panic raised by
`from_timestamp` on an out-of-range timestamp. -/
inductive SearchResult where
  | found (item : WeatherForecast) : SearchResult
  | missing : SearchResult
  | fatal (msg : String) : SearchResult
  deriving DecidableEq, Repr

/-- Models the `position` loop plus `remove` of
`WeatherForecaster::get_weather` (src/forecast/mod.rs lines 90-96): the
entries are visited in sequence order; on each visited entry
`chrono::NaiveDateTime::from_timestamp(item.dt, 0)` panics when the
timestamp is outside the representable range, and otherwise the entry's
UTC calendar date is compared with the requested date; the first match
short-circuits the search and is removed and returned. -/
def find_forecast_for_date (requested : NaiveDate) :
    List WeatherForecast → SearchResult
  | [] => SearchResult.missing
  | item :: rest =>
    if timestamp_in_range item.dt then
      if forecast_date_matches item.dt requested then SearchResult.found item
      else find_forecast_for_date requested rest
    else SearchResult.fatal "invalid or out-of-range datetime"


/-- The `AvailableService` enum (src/forecast/available_services.rs): the
closed set of known forecast providers. -/
inductive AvailableService where
  | OpenWeatherMap
  | WeatherApi
  deriving DecidableEq, Repr

/-- Models `AvailableService::iter` (src/forecast/available_services.rs
lines 7-11): the static list of all services in declaration order. -/
def AvailableService.iter : List AvailableService :=
  [AvailableService.OpenWeatherMap, AvailableService.WeatherApi]

/-- Models the `Display` impl of `AvailableService`
(src/forecast/available_services.rs lines 14-21). -/
def AvailableService.render : AvailableService → String
  | AvailableService.OpenWeatherMap => "OpenWeatherMap"
  | AvailableService.WeatherApi => "WeatherApi"

/-- Models the `FromStr` impl of `AvailableService`
(src/forecast/available_services.rs lines 23-33): exact case-sensitive
match against the canonical spellings, `none` otherwise. -/
def AvailableService.from_str (input : String) : Option AvailableService :=
  if input = "OpenWeatherMap" then some AvailableService.OpenWeatherMap
  else if input = "WeatherApi" then some AvailableService.WeatherApi
  else none

/-- The `ForecastEndService` trait (src/forecast/mod.rs lines 39-42): a
provider adapter supplies a request URL builder and a reply handler.
`handle_response` receives the response body (the source consumes the
`reqwest::Response` only to read its JSON body). -/
structure ForecastEndService where
  get_url : Location → String
  handle_response : HttpBody → RustResult Error (List WeatherForecast)

namespace openweathermap

/-- The `Condition` struct of the OpenWeatherMap reply schema
(src/forecast/forecast_services/openweathermap.rs). -/
structure Condition where
  main : String
  description : String
  deriving DecidableEq, Repr

/-- The `Temp` struct of the OpenWeatherMap reply schema. -/
structure Temp where
  min : Rat
  max : Rat
  day : Rat
  deriving DecidableEq, Repr

/-- The `Forecast` struct of the OpenWeatherMap reply schema: one daily
entry with epoch seconds, temperatures, and a weather condition array. -/
structure Forecast where
  dt : Int
  temp : Temp
  weather : List Condition
  deriving DecidableEq, Repr

/-- Serde deserialization of one `Condition` object. -/
def decode_condition (j : Json) : Option Condition := do
  let mainJ ← j.getField "main"
  let m ← mainJ.asString
  let descJ ← j.getField "description"
  let desc ← descJ.asString
  pure { main := m, description := desc }

/-- Serde deserialization of one `Temp` object. -/
def decode_temp (j : Json) : Option Temp := do
  let minJ ← j.getField "min"
  let minV ← minJ.asF32
  let maxJ ← j.getField "max"
  let maxV ← maxJ.asF32
  let dayJ ← j.getField "day"
  let dayV ← dayJ.asF32
  pure { min := minV, max := maxV, day := dayV }

/-- Serde deserialization of one daily `Forecast` object. -/
def decode_forecast (j : Json) : Option Forecast := do
  let dtJ ← j.getField "dt"
  let dt ← dtJ.asI64
  let tempJ ← j.getField "temp"
  let temp ← decode_temp tempJ
  let weatherJ ← j.getField "weather"
  let weatherItems ← weatherJ.asArray
  let weather ← weatherItems.mapM decode_condition
  pure { dt := dt, temp := temp, weather := weather }

/-- Serde deserialization of the whole `JSONReply` (`{ daily: [...] }`). -/
def decode_reply (j : Json) : Option (List Forecast) := do
  let dailyJ ← j.getField "daily"
  let daily ← dailyJ.asArray
  daily.mapM decode_forecast

/-- The per-day mapping applied by `Integration::handle_response`
(src/forecast/forecast_services/openweathermap.rs lines 59-67), written
totally: the source indexes `item.weather[0]` twice, which panics on an
empty weather array (handled in `collect_forecasts` below). -/
def to_forecast (item : Forecast) : WeatherForecast :=
  match item.weather with
  | c :: _ =>
    { dt := item.dt, min_t := item.temp.min, max_t := item.temp.max,
      avg_t := item.temp.day, condition := c.main ++ ", " ++ c.description }
  | [] =>
    { dt := item.dt, min_t := item.temp.min, max_t := item.temp.max,
      avg_t := item.temp.day, condition := "" }

/-- Models the `.map(...).collect()` loop of `Integration::handle_response`:
each day is normalized in order; an entry whose `weather` array is empty
makes `item.weather[0]` panic with Rust's out-of-bounds message. -/
def collect_forecasts : List Forecast → RustResult Error (List WeatherForecast)
  | [] => RustResult.ok []
  | item :: rest =>
    match item.weather with
    | [] => RustResult.fatal "index out of bounds: the len is 0 but the index is 0"
    | _ :: _ =>
      match collect_forecasts rest with
      | RustResult.ok tail => RustResult.ok (to_forecast item :: tail)
      | r => r

/-- Models `Integration::handle_response`
(src/forecast/forecast_services/openweathermap.rs lines 52-69): the body is
deserialized as `JSONReply`; any failure yields an `Internal` error (the
serde error detail appended in the source is elided from the message);
otherwise each daily entry is normalized in order. -/
def handle_response (body : HttpBody) : RustResult Error (List WeatherForecast) :=
  match body.json.bind decode_reply with
  | none =>
    RustResult.err
      { code := ErrorCode.Internal,
        description := "Unable to process the response from OpenWeatherMap. " }
  | some days => collect_forecasts days

/-- Models `Integration::get_url`
(src/forecast/forecast_services/openweathermap.rs lines 43-50).  The API
key is the `OPENWEATHERMAP_AUTHORIZATION` configuration string, passed here
as an argument. -/
def get_url (key : String) (loc : Location) : String :=
  let forecast_excludes := "current,minutely,hourly"
  let units := "metric"
  "https://api.openweathermap.org/data/2.5/onecall?lat=" ++ loc.lat.render ++
    "&lon=" ++ loc.lon.render ++ "&units=" ++ units ++
    "&exclude=" ++ forecast_excludes ++ "&appid=" ++ key

end openweathermap

namespace weatherapi

/-- The `Condition` struct of the WeatherApi reply schema
(src/forecast/forecast_services/weatherapi.rs). -/
structure Condition where
  text : String
  deriving DecidableEq, Repr

/-- The `WeatherData` struct of the WeatherApi reply schema. -/
structure WeatherData where
  maxtemp_c : Rat
  mintemp_c : Rat
  avgtemp_c : Rat
  condition : Condition
  deriving DecidableEq, Repr

/-- The `DailyForecast` struct of the WeatherApi reply schema. -/
structure DailyForecast where
  date_epoch : Int
  day : WeatherData
  deriving DecidableEq, Repr

/-- Serde deserialization of one `Condition` object. -/
def decode_condition (j : Json) : Option Condition := do
  let textJ ← j.getField "text"
  let t ← textJ.asString
  pure { text := t }

/-- Serde deserialization of one `WeatherData` object. -/
def decode_day (j : Json) : Option WeatherData := do
  let maxJ ← j.getField "maxtemp_c"
  let maxV ← maxJ.asF32
  let minJ ← j.getField "mintemp_c"
  let minV ← minJ.asF32
  let avgJ ← j.getField "avgtemp_c"
  let avgV ← avgJ.asF32
  let condJ ← j.getField "condition"
  let cond ← decode_condition condJ
  pure { maxtemp_c := maxV, mintemp_c := minV, avgtemp_c := avgV, condition := cond }

/-- Serde deserialization of one `DailyForecast` object. -/
def decode_forecastday (j : Json) : Option DailyForecast := do
  let epochJ ← j.getField "date_epoch"
  let epoch ← epochJ.asI64
  let dayJ ← j.getField "day"
  let day ← decode_day dayJ
  pure { date_epoch := epoch, day := day }

/-- Serde deserialization of the whole `JSONReply`
(`{ forecast: { forecastday: [...] } }`). -/
def decode_reply (j : Json) : Option (List DailyForecast) := do
  let forecastJ ← j.getField "forecast"
  let fdJ ← forecastJ.getField "forecastday"
  let fd ← fdJ.asArray
  fd.mapM decode_forecastday

/-- The per-day mapping applied by `Integration::handle_response`
(src/forecast/forecast_services/weatherapi.rs lines 62-71): the condition
text is passed through unchanged. -/
def to_forecast (item : DailyForecast) : WeatherForecast :=
  { dt := item.date_epoch, min_t := item.day.mintemp_c, max_t := item.day.maxtemp_c,
    avg_t := item.day.avgtemp_c, condition := item.day.condition.text }

/-- Models `Integration::handle_response`
(src/forecast/forecast_services/weatherapi.rs lines 55-74): the body is
deserialized as `JSONReply`; any failure yields an `Internal` error (the
serde error detail appended in the source is elided from the message);
otherwise each daily entry is normalized in order. -/
def handle_response (body : HttpBody) : RustResult Error (List WeatherForecast) :=
  match body.json.bind decode_reply with
  | none =>
    RustResult.err
      { code := ErrorCode.Internal,
        description := "Unable to process the response from WeatherApi. " }
  | some days => RustResult.ok (days.map to_forecast)

/-- Models `Integration::get_url`
(src/forecast/forecast_services/weatherapi.rs lines 48-53).  The API key is
the `WEATHER_API_AUTHORIZATION` configuration string, passed here as an
argument. -/
def get_url (key : String) (loc : Location) : String :=
  "http://api.weatherapi.com/v1/forecast.json?key=" ++ key ++
    "&q=" ++ loc.lat.render ++ "," ++ loc.lon.render ++ "&days=10&aqi=no&alerts=no"

end weatherapi

/-- The error built by `make_invalid_date_error` (src/forecast/mod.rs lines
49-56), returned both on a date-parse failure and when no forecast day
matches the requested date.  The source builds the description with
`concat!` of two string literals, with no separator between them. -/
def make_invalid_date_error : Error :=
  { code := ErrorCode.InvalidArgument,
    description :=
      "Can\x27t find forecast for specified data." ++
        "Make sure that you use the format mm.dd.yyyy and do not specify a past date." }

/-- The `WeatherForecaster` struct (src/forecast/mod.rs lines 45-47),
holding the resolved provider adapter. -/
structure WeatherForecaster where
  provider : ForecastEndService

/-- Models `WeatherForecaster::get_weather` (src/forecast/mod.rs lines
70-114).  The ambient effects are explicit arguments: `urlValid` models
whether `reqwest::Url::parse` accepts the adapter-built URL string (the
source panics when it does not), and `transport` models the single
outbound HTTP GET at that URL.  On a 200 response the source computes the
position of the first entry whose timestamp falls on the requested date and
removes and returns that entry, which is the first match in sequence
order; on no match it returns `make_invalid_date_error`; the position loop
itself panics when it reaches an entry whose timestamp is outside
`from_timestamp`'s representable range. -/
def WeatherForecaster.get_weather (self : WeatherForecaster)
    (urlValid : String → Bool) (transport : String → TransportResult)
    (loc : Location) (date_string : String) : RustResult Error WeatherForecast :=
  match NaiveDate.parse_mm_dd_yyyy date_string with
  | none => RustResult.err make_invalid_date_error
  | some requested_date =>
    let url_string := self.provider.get_url loc
    if urlValid url_string then
      match transport url_string with
      | TransportResult.failure errText =>
        RustResult.err
          { code := ErrorCode.Internal,
            description := "Unable to make request. " ++ errText }
      | TransportResult.response status body =>
        if status = 200 then
          match self.provider.handle_response body with
          | RustResult.fatal m => RustResult.fatal m
          | RustResult.err e => RustResult.err e
          | RustResult.ok forecasts =>
            match find_forecast_for_date requested_date forecasts with
            | SearchResult.found item => RustResult.ok item
            | SearchResult.missing => RustResult.err make_invalid_date_error
            | SearchResult.fatal m => RustResult.fatal m
        else if status = 400 then
          RustResult.err { code := ErrorCode.InvalidArgument, description := body.text }
        else
          RustResult.err { code := ErrorCode.Internal, description := body.text }
    else
      RustResult.fatal ("There was a problem parsing the url: " ++ url_string)

/-- Models `get_forecast_integration` (src/forecast/mod.rs lines 117-122):
dispatch from the provider identity to its adapter.  The two configuration
API keys are explicit arguments. -/
def get_forecast_integration (owmKey wapiKey : String) :
    AvailableService → ForecastEndService
  | AvailableService.OpenWeatherMap =>
    { get_url := openweathermap.get_url owmKey,
      handle_response := openweathermap.handle_response }
  | AvailableService.WeatherApi =>
    { get_url := weatherapi.get_url wapiKey,
      handle_response := weatherapi.handle_response }

/-- Subset of the tonic status codes used by the service implementation. -/
inductive Code where
  | Internal
  | InvalidArgument
  deriving DecidableEq, Repr

/-- A tonic `Status`: a code plus a message. -/
structure Status where
  code : Code
  message : String
  deriving DecidableEq, Repr

/-- The `WeatherQueryParams` message of the `weather_service_rpc` crate
(not under src/): provider name, optional location, and date string.
Modelled from the spec section on the `GetForecast` operation; the
location field is optional at the protobuf level, which is why the handler
must unwrap it. -/
structure WeatherQueryParams where
  provider : String
  location : Option Location
  date : String

/-- The `Display` impl of `forecast::Error` (src/forecast/mod.rs lines
27-31), used by the service implementation to build the status message. -/
def Error.display (e : Error) : String :=
  "An error occured when performing forecast request: " ++ e.description ++ "."

/-- Models `WeatherServiceImpl::get_weather` (src/weather_service_impl.rs
lines 43-62): the provider name is parsed first (unknown name gives an
`InvalidArgument` status); then `params.location.unwrap()` is evaluated
while building the forecaster call, panicking when the location is absent;
finally the forecaster's error codes are mapped onto tonic codes. -/
def WeatherServiceImpl.get_weather (owmKey wapiKey : String)
    (urlValid : String → Bool) (transport : String → TransportResult)
    (params : WeatherQueryParams) : RustResult Status WeatherForecast :=
  match AvailableService.from_str params.provider with
  | none =>
    RustResult.err { code := Code.InvalidArgument, message := "Invalid weather provider passed." }
  | some service =>
    match params.location with
    | none => RustResult.fatal "called `Option::unwrap()` on a `None` value"
    | some loc =>
      match WeatherForecaster.get_weather
          ⟨get_forecast_integration owmKey wapiKey service⟩
          urlValid transport loc params.date with
      | RustResult.ok weather => RustResult.ok weather
      | RustResult.err e =>
        RustResult.err
          { code :=
              match e.code with
              | ErrorCode.Internal => Code.Internal
              | ErrorCode.InvalidArgument => Code.InvalidArgument,
            message := e.display }
      | RustResult.fatal m => RustResult.fatal m

/-- First stub forecast entry of the repository's own orchestrator tests:
the day at epoch 946684800 (01.01.2000). -/
def stub_entry_1 : WeatherForecast :=
  { dt := 946684800, min_t := 19.5, max_t := 20.5, avg_t := 20, condition := "Warm and cool" }

/-- Second stub forecast entry of the repository's own orchestrator tests:
the day at epoch 946771200 (01.02.2000). -/
def stub_entry_2 : WeatherForecast :=
  { dt := 946771200, min_t := 21.5, max_t := 22.5, avg_t := 22, condition := "Warm and cool too" }

/-- A stub provider adapter (mirroring `StubForecastEndpoint` of the
orchestrator tests): fixed URL, fixed two-day forecast sequence. -/
def stub_service : ForecastEndService :=
  { get_url := fun _ => "http://stub/forecast",
    handle_response := fun _ => RustResult.ok [stub_entry_1, stub_entry_2] }

/-- The sample location of the repository's tests (lat 2.2, lon 1.1). -/
def stub_location : Location :=
  { name := "Name", state := "State", country := "Country",
    lat := ⟨22, 1⟩, lon := ⟨11, 1⟩ }

/-- An empty 200-response body for exercising the stub adapter. -/
def stub_body : HttpBody := { text := "", json := none }

/-- A transport that answers every GET with status 200 and an empty body. -/
def stub_transport : String → TransportResult :=
  fun _ => TransportResult.response 200 stub_body

/-- The OpenWeatherMap fixture payload of the repository's adapter test
(`parse_response_test`): two daily entries. -/
def owm_fixture_json : Json :=
  Json.obj [("daily", Json.arr
    [Json.obj
      [("dt", Json.num 946684800),
       ("temp", Json.obj [("day", Json.num 20), ("min", Json.num 19.5), ("max", Json.num 20.5)]),
       ("weather", Json.arr
         [Json.obj [("main", Json.str "Sky is clear"), ("description", Json.str "warm and good")]])],
     Json.obj
      [("dt", Json.num 946771200),
       ("temp", Json.obj [("day", Json.num 23), ("min", Json.num 22.5), ("max", Json.num 23.5)]),
       ("weather", Json.arr
         [Json.obj [("main", Json.str "Sky is clear"), ("description", Json.str "warm and good too")]])]])]

/-- The OpenWeatherMap fixture as an HTTP body. -/
def owm_fixture_body : HttpBody := { text := "", json := some owm_fixture_json }

/-- The decoded form of the OpenWeatherMap fixture. -/
def owm_fixture_days : List openweathermap.Forecast :=
  [{ dt := 946684800, temp := { min := 19.5, max := 20.5, day := 20 },
     weather := [{ main := "Sky is clear", description := "warm and good" }] },
   { dt := 946771200, temp := { min := 22.5, max := 23.5, day := 23 },
     weather := [{ main := "Sky is clear", description := "warm and good too" }] }]

/-- The WeatherApi fixture payload of the repository's adapter test
(`parse_response_test`): two daily entries. -/
def wapi_fixture_json : Json :=
  Json.obj [("forecast", Json.obj [("forecastday", Json.arr
    [Json.obj
      [("date_epoch", Json.num 946684800),
       ("day", Json.obj
         [("maxtemp_c", Json.num 20.5), ("mintemp_c", Json.num 19.5),
          ("avgtemp_c", Json.num 20),
          ("condition", Json.obj [("text", Json.str "It\x27s warm and good!")])])],
     Json.obj
      [("date_epoch", Json.num 946771200),
       ("day", Json.obj
         [("maxtemp_c", Json.num 23.5), ("mintemp_c", Json.num 22.5),
          ("avgtemp_c", Json.num 23),
          ("condition", Json.obj [("text", Json.str "It\x27s warm and good too!")])])]])])]

/-- The WeatherApi fixture as an HTTP body. -/
def wapi_fixture_body : HttpBody := { text := "", json := some wapi_fixture_json }

/-- The decoded form of the WeatherApi fixture. -/
def wapi_fixture_days : List weatherapi.DailyForecast :=
  [{ date_epoch := 946684800,
     day := { maxtemp_c := 20.5, mintemp_c := 19.5, avgtemp_c := 20,
              condition := { text := "It\x27s warm and good!" } } },
   { date_epoch := 946771200,
     day := { maxtemp_c := 23.5, mintemp_c := 22.5, avgtemp_c := 23,
              condition := { text := "It\x27s warm and good too!" } } }]

/-- A structurally valid OpenWeatherMap reply whose single day carries an
empty `weather` array: serde deserializes it successfully, and the
normalization loop then indexes `weather[0]`. -/
def owm_empty_weather_body : HttpBody :=
  { text := "",
    json := some (Json.obj [("daily", Json.arr
      [Json.obj
        [("dt", Json.num 946684800),
         ("temp", Json.obj [("day", Json.num 20), ("min", Json.num 19.5), ("max", Json.num 20.5)]),
         ("weather", Json.arr [])]])]) }

/-- A body that does not deserialize into either adapter's reply schema. -/
def malformed_body : HttpBody := { text := "not json", json := none }

/-- A forecast entry whose i64 timestamp (2^62 epoch seconds) lies far
beyond the last representable `chrono::NaiveDateTime`. -/
def out_of_range_entry : WeatherForecast :=
  { dt := 4611686018427387904, min_t := 0, max_t := 0, avg_t := 0,
    condition := "beyond the calendar" }

/-- A stub adapter whose parsed sequence starts with an out-of-range
timestamp followed by the day at epoch 946684800. -/
def overflow_stub_service : ForecastEndService :=
  { get_url := fun _ => "http://stub/forecast",
    handle_response := fun _ => RustResult.ok [out_of_range_entry, stub_entry_1] }

/-- Helper: the selection loop returns the first matching entry when every
entry before it carries an in-range timestamp that does not match. -/
theorem find_forecast_first (requested : NaiveDate) :
    ∀ (front : List WeatherForecast) (e : WeatherForecast) (post : List WeatherForecast),
      (∀ x ∈ front, timestamp_in_range x.dt = true ∧
        forecast_date_matches x.dt requested = false) →
      timestamp_in_range e.dt = true →
      forecast_date_matches e.dt requested = true →
      find_forecast_for_date requested (front ++ e :: post) = SearchResult.found e := by
  intro front e post hfront her hem
  induction front with
  | nil => simp [find_forecast_for_date, her, hem]
  | cons a t ih =>
    rcases hfront a (List.mem_cons_self a t) with ⟨ha1, ha2⟩
    have ht := ih (fun x hx => hfront x (List.mem_cons_of_mem a hx))
    simp [find_forecast_for_date, ha1, ha2, ht]

/-- Helper: the selection loop reports no match when every entry carries an
in-range timestamp that does not match. -/
theorem find_forecast_missing (requested : NaiveDate) :
    ∀ l : List WeatherForecast,
      (∀ x ∈ l, timestamp_in_range x.dt = true ∧
        forecast_date_matches x.dt requested = false) →
      find_forecast_for_date requested l = SearchResult.missing := by
  intro l hl
  induction l with
  | nil => rfl
  | cons a t ih =>
    rcases hl a (List.mem_cons_self a t) with ⟨ha1, ha2⟩
    have ht := ih (fun x hx => hl x (List.mem_cons_of_mem a hx))
    simp [find_forecast_for_date, ha1, ha2, ht]

/-- Helper: the selection loop panics when it reaches an entry with an
out-of-range timestamp, with only in-range non-matching entries before it. -/
theorem find_forecast_fatal (requested : NaiveDate) :
    ∀ (front : List WeatherForecast) (e : WeatherForecast) (post : List WeatherForecast),
      (∀ x ∈ front, timestamp_in_range x.dt = true ∧
        forecast_date_matches x.dt requested = false) →
      timestamp_in_range e.dt = false →
      find_forecast_for_date requested (front ++ e :: post) =
        SearchResult.fatal "invalid or out-of-range datetime" := by
  intro front e post hfront her
  induction front with
  | nil => simp [find_forecast_for_date, her]
  | cons a t ih =>
    rcases hfront a (List.mem_cons_self a t) with ⟨ha1, ha2⟩
    have ht := ih (fun x hx => hfront x (List.mem_cons_of_mem a hx))
    simp [find_forecast_for_date, ha1, ha2, ht]

/-- Helper: the OpenWeatherMap normalization loop succeeds and maps each
day in order when every day has a nonempty weather array. -/
theorem owm_collect_ok :
    ∀ days : List openweathermap.Forecast,
      (∀ x ∈ days, x.weather ≠ []) →
      openweathermap.collect_forecasts days =
        RustResult.ok (days.map openweathermap.to_forecast) := by
  intro days h
  induction days with
  | nil => rfl
  | cons item rest ih =>
    have hi : item.weather ≠ [] := h item (List.mem_cons_self item rest)
    have ht : ∀ x ∈ rest, x.weather ≠ [] := fun x hx => h x (List.mem_cons_of_mem item hx)
    match hw : item.weather with
    | [] => exact absurd hw hi
    | c :: ws =>
      simp [openweathermap.collect_forecasts, hw, ih ht]

/-- Helper: the OpenWeatherMap normalization loop panics when some day has
an empty weather array. -/
theorem owm_collect_fatal :
    ∀ days : List openweathermap.Forecast,
      (∃ x ∈ days, x.weather = []) →
      ∃ m, openweathermap.collect_forecasts days = RustResult.fatal m := by
  intro days h
  induction days with
  | nil => simp at h
  | cons item rest ih =>
    match hw : item.weather with
    | [] =>
      exact ⟨"index out of bounds: the len is 0 but the index is 0",
        by simp [openweathermap.collect_forecasts, hw]⟩
    | c :: ws =>
      have hrest : ∃ x ∈ rest, x.weather = [] := by
        rcases h with ⟨x, hx, hxw⟩
        rcases List.mem_cons.mp hx with rfl | hx2
        · rw [hw] at hxw; exact absurd hxw (List.cons_ne_nil c ws)
        · exact ⟨x, hx2, hxw⟩
      rcases ih hrest with ⟨m, hm⟩
      exact ⟨m, by simp [openweathermap.collect_forecasts, hw, hm]⟩

/-- C8: every `ProviderIdentity` variant round-trips through render/parse;
parse succeeds exactly on the two case-sensitive canonical spellings; and
the enumeration yields exactly the two variants in declaration order. -/
theorem C8_provider_identity_roundtrip :
    (∀ x : AvailableService, AvailableService.from_str (AvailableService.render x) = some x) ∧
    (∀ (s : String) (x : AvailableService),
      AvailableService.from_str s = some x ↔
        (s = "OpenWeatherMap" ∧ x = AvailableService.OpenWeatherMap) ∨
        (s = "WeatherApi" ∧ x = AvailableService.WeatherApi)) ∧
    AvailableService.iter = [AvailableService.OpenWeatherMap, AvailableService.WeatherApi] := by
  refine ⟨fun x => by cases x <;> rfl, fun s x => ?_, rfl⟩
  unfold AvailableService.from_str
  split_ifs with h1 h2
  · subst h1
    constructor
    · intro h
      exact Or.inl ⟨rfl, (Option.some.injEq _ _ ▸ h).symm⟩
    · rintro (⟨-, rfl⟩ | ⟨h, -⟩)
      · rfl
      · exact absurd h (by decide)
  · subst h2
    constructor
    · intro h
      exact Or.inr ⟨rfl, (Option.some.injEq _ _ ▸ h).symm⟩
    · rintro (⟨h, -⟩ | ⟨-, rfl⟩)
      · exact absurd h h1
      · rfl
  · constructor
    · intro h
      exact absurd h (by simp)
    · rintro (⟨rfl, -⟩ | ⟨rfl, -⟩)
      · exact absurd rfl h1
      · exact absurd rfl h2

/-- C7: each adapter's URL builder deterministically produces exactly the
provider's URL template with the rendered coordinates and the credential
interpolated, and the coordinate rendering is lossless for simple decimals
(lat 2.2 renders as "2.2", not "2.200000"). -/
theorem C7_build_url_exact_format :
    (∀ (key : String) (loc : Location),
      openweathermap.get_url key loc =
        "https://api.openweathermap.org/data/2.5/onecall?lat=" ++ loc.lat.render ++
          "&lon=" ++ loc.lon.render ++
          "&units=metric&exclude=current,minutely,hourly&appid=" ++ key ∧
      weatherapi.get_url key loc =
        "http://api.weatherapi.com/v1/forecast.json?key=" ++ key ++
          "&q=" ++ loc.lat.render ++ "," ++ loc.lon.render ++ "&days=10&aqi=no&alerts=no") ∧
    openweathermap.get_url "APPID" stub_location =
      "https://api.openweathermap.org/data/2.5/onecall?lat=2.2&lon=1.1&units=metric&exclude=current,minutely,hourly&appid=APPID" ∧
    weatherapi.get_url "APPID" stub_location =
      "http://api.weatherapi.com/v1/forecast.json?key=APPID&q=2.2,1.1&days=10&aqi=no&alerts=no" ∧
    Decimal.render ⟨22, 1⟩ = "2.2" ∧
    Decimal.render ⟨22, 1⟩ ≠ "2.200000" := by
  refine ⟨fun key loc => ⟨?_, ?_⟩, by decide, by decide, by decide, by decide⟩
  · simp [openweathermap.get_url, String.append_assoc]
  · simp [weatherapi.get_url, String.append_assoc]

/-- C1 counterexample: a parsed forecast sequence whose first entry
carries the i64 timestamp 2^62 — far outside `NaiveDateTime`'s range —
followed by the day at epoch 946684800, requested as 01.01.2000: the
matching entry exists, yet `get_weather` aborts with chrono's
`from_timestamp` panic instead of returning the first matching entry (or
`InvalidArgument`). -/
theorem C1_counterexample :
    NaiveDate.parse_mm_dd_yyyy "01.01.2000" = some ⟨2000, 1, 1⟩ ∧
    forecast_date_matches stub_entry_1.dt ⟨2000, 1, 1⟩ = true ∧
    WeatherForecaster.get_weather ⟨overflow_stub_service⟩ (fun _ => true) stub_transport
      stub_location "01.01.2000" = RustResult.fatal "invalid or out-of-range datetime" :=
  ⟨by decide, by decide, rfl⟩

/-- C1 (amended): for every parsed forecast sequence and every successfully
parsed requested date, `get_weather` returns the first entry in sequence
order whose in-range timestamp, as a UTC calendar date, equals the
requested date, provided the entries before it carry in-range timestamps
that do not match; if every entry carries an in-range non-matching
timestamp it fails with the `InvalidArgument` error that carries the same
message as the date-parse failure (both are `make_invalid_date_error`);
and reaching an entry whose timestamp is outside `NaiveDateTime`'s
representable range before any match makes `get_weather` panic instead. -/
theorem C1_amended_first_match_within_range
    (svc : ForecastEndService) (urlValid : String → Bool)
    (transport : String → TransportResult) (loc : Location)
    (date_string : String) (requested : NaiveDate) (body : HttpBody)
    (forecasts : List WeatherForecast)
    (hparse : NaiveDate.parse_mm_dd_yyyy date_string = some requested)
    (hurl : urlValid (svc.get_url loc) = true)
    (htrans : transport (svc.get_url loc) = TransportResult.response 200 body)
    (hresp : svc.handle_response body = RustResult.ok forecasts) :
    (∀ (front : List WeatherForecast) (e : WeatherForecast) (post : List WeatherForecast),
        forecasts = front ++ e :: post →
        (∀ x ∈ front, timestamp_in_range x.dt = true ∧
          forecast_date_matches x.dt requested = false) →
        timestamp_in_range e.dt = true →
        forecast_date_matches e.dt requested = true →
        WeatherForecaster.get_weather ⟨svc⟩ urlValid transport loc date_string =
          RustResult.ok e) ∧
    ((∀ x ∈ forecasts, timestamp_in_range x.dt = true ∧
        forecast_date_matches x.dt requested = false) →
        WeatherForecaster.get_weather ⟨svc⟩ urlValid transport loc date_string =
          RustResult.err make_invalid_date_error) ∧
    (∀ (front : List WeatherForecast) (e : WeatherForecast) (post : List WeatherForecast),
        forecasts = front ++ e :: post →
        (∀ x ∈ front, timestamp_in_range x.dt = true ∧
          forecast_date_matches x.dt requested = false) →
        timestamp_in_range e.dt = false →
        WeatherForecaster.get_weather ⟨svc⟩ urlValid transport loc date_string =
          RustResult.fatal "invalid or out-of-range datetime") ∧
    make_invalid_date_error.code = ErrorCode.InvalidArgument ∧
    (∀ s₂ : String, NaiveDate.parse_mm_dd_yyyy s₂ = none →
        WeatherForecaster.get_weather ⟨svc⟩ urlValid transport loc s₂ =
          RustResult.err make_invalid_date_error) := by
  have hbase : WeatherForecaster.get_weather ⟨svc⟩ urlValid transport loc date_string =
      match find_forecast_for_date requested forecasts with
      | SearchResult.found item => RustResult.ok item
      | SearchResult.missing => RustResult.err make_invalid_date_error
      | SearchResult.fatal m => RustResult.fatal m := by
    unfold WeatherForecaster.get_weather
    simp [hparse, hurl, htrans, hresp]
  refine ⟨?_, ?_, ?_, rfl, ?_⟩
  · intro front e post hfc hfront her hem
    rw [hbase, hfc, find_forecast_first requested front e post hfront her hem]
  · intro hall
    rw [hbase, find_forecast_missing requested forecasts hall]
  · intro front e post hfc hfront her
    rw [hbase, hfc, find_forecast_fatal requested front e post hfront her]
  · intro s₂ h₂
    unfold WeatherForecaster.get_weather
    simp [h₂]

/-- C1 witness: requesting 01.01.2000 against the stub days at epochs
946684800 and 946771200 returns the entry at 946684800. -/
theorem C1_witness :
    NaiveDate.parse_mm_dd_yyyy "01.01.2000" = some ⟨2000, 1, 1⟩ ∧
    WeatherForecaster.get_weather ⟨stub_service⟩ (fun _ => true) stub_transport
      stub_location "01.01.2000" = RustResult.ok stub_entry_1 :=
  ⟨by decide,
   (C1_amended_first_match_within_range stub_service (fun _ => true) stub_transport
      stub_location "01.01.2000" ⟨2000, 1, 1⟩ stub_body [stub_entry_1, stub_entry_2]
      (by decide) rfl rfl rfl).1 [] stub_entry_1 [stub_entry_2] rfl (by simp)
      (by decide) (by decide)⟩

/-- C4 counterexample: the date text "1.1.2000" is not in the strict
two-digit-month, two-digit-day form, yet `get_weather` parses it (chrono's
`%m`/`%d` accept one digit), proceeds to the network exchange and returns
the matching day instead of failing with `InvalidArgument`. -/
theorem C4_counterexample :
    NaiveDate.parse_mm_dd_yyyy "1.1.2000" = some ⟨2000, 1, 1⟩ ∧
    WeatherForecaster.get_weather ⟨stub_service⟩ (fun _ => true) stub_transport
      stub_location "1.1.2000" = RustResult.ok stub_entry_1 := by
  exact ⟨by decide, rfl⟩

/-- Helper: whether the pattern occurs as a contiguous run inside the text
(used to state that an error message mentions the expected date format). -/
def textMentions (pat : List Char) : List Char → Bool
  | [] => pat.isEmpty
  | c :: rest => pat.isPrefixOf (c :: rest) || textMentions pat rest

/-- C4 (amended): for every date text that chrono's `%m.%d.%Y` parsing
rejects, `get_weather` fails with `InvalidArgument` and the message that
instructs the caller on the mm.dd.yyyy format, regardless of the URL
validity and of the transport — so before any URL parse or network call;
texts with unpadded one-digit months or days, however, are accepted. -/
theorem C4_amended_invalid_date_rejected_before_transport
    (svc : ForecastEndService) (urlValid : String → Bool)
    (transport : String → TransportResult) (loc : Location) (date_string : String)
    (hparse : NaiveDate.parse_mm_dd_yyyy date_string = none) :
    WeatherForecaster.get_weather ⟨svc⟩ urlValid transport loc date_string =
      RustResult.err make_invalid_date_error ∧
    make_invalid_date_error.code = ErrorCode.InvalidArgument ∧
    textMentions "mm.dd.yyyy".toList make_invalid_date_error.description.toList = true := by
  refine ⟨?_, rfl, by decide⟩
  unfold WeatherForecaster.get_weather
  simp [hparse]

/-- C4 witness: "2000.01.01" (wrong field order) fails with the
`InvalidArgument` date error for an arbitrary transport. -/
theorem C4_witness :
    WeatherForecaster.get_weather ⟨stub_service⟩ (fun _ => true) stub_transport
      stub_location "2000.01.01" = RustResult.err make_invalid_date_error :=
  (C4_amended_invalid_date_rejected_before_transport stub_service (fun _ => true)
    stub_transport stub_location "2000.01.01" (by decide)).1

/-- C5: for every HTTP response received, the error kind is determined by
the status code alone: 400 yields `InvalidArgument` with the response body
verbatim as message, and any status other than 200 and 400 yields
`Internal` with the response body verbatim. -/
theorem C5_status_code_error_mapping
    (svc : ForecastEndService) (urlValid : String → Bool)
    (transport : String → TransportResult) (loc : Location)
    (date_string : String) (requested : NaiveDate) (status : Nat) (body : HttpBody)
    (hparse : NaiveDate.parse_mm_dd_yyyy date_string = some requested)
    (hurl : urlValid (svc.get_url loc) = true)
    (htrans : transport (svc.get_url loc) = TransportResult.response status body) :
    (status = 400 →
      WeatherForecaster.get_weather ⟨svc⟩ urlValid transport loc date_string =
        RustResult.err { code := ErrorCode.InvalidArgument, description := body.text }) ∧
    (status ≠ 200 → status ≠ 400 →
      WeatherForecaster.get_weather ⟨svc⟩ urlValid transport loc date_string =
        RustResult.err { code := ErrorCode.Internal, description := body.text }) := by
  constructor
  · intro h400
    subst h400
    unfold WeatherForecaster.get_weather
    simp [hparse, hurl, htrans]
  · intro h200 h400
    unfold WeatherForecaster.get_weather
    simp [hparse, hurl, htrans, h200, h400]

/-- C5 witness: a 400 response body becomes the `InvalidArgument` message
verbatim, and a 500 response body becomes the `Internal` message verbatim. -/
theorem C5_witness :
    WeatherForecaster.get_weather ⟨stub_service⟩ (fun _ => true)
        (fun _ => TransportResult.response 400 { text := "bad coordinates", json := none })
        stub_location "01.01.2000" =
      RustResult.err { code := ErrorCode.InvalidArgument, description := "bad coordinates" } ∧
    WeatherForecaster.get_weather ⟨stub_service⟩ (fun _ => true)
        (fun _ => TransportResult.response 500 { text := "upstream exploded", json := none })
        stub_location "01.01.2000" =
      RustResult.err { code := ErrorCode.Internal, description := "upstream exploded" } :=
  ⟨(C5_status_code_error_mapping stub_service (fun _ => true) _ stub_location
      "01.01.2000" ⟨2000, 1, 1⟩ 400 { text := "bad coordinates", json := none }
      (by decide) rfl rfl).1 rfl,
   (C5_status_code_error_mapping stub_service (fun _ => true) _ stub_location
      "01.01.2000" ⟨2000, 1, 1⟩ 500 { text := "upstream exploded", json := none }
      (by decide) rfl rfl).2 (by decide) (by decide)⟩

/-- C6: for every transport-level failure of the single outbound GET,
`get_weather` fails with kind `Internal` — never `InvalidArgument` — and a
message embedding the underlying transport error text. -/
theorem C6_transport_failure_internal
    (svc : ForecastEndService) (urlValid : String → Bool)
    (transport : String → TransportResult) (loc : Location)
    (date_string : String) (requested : NaiveDate) (errText : String)
    (hparse : NaiveDate.parse_mm_dd_yyyy date_string = some requested)
    (hurl : urlValid (svc.get_url loc) = true)
    (htrans : transport (svc.get_url loc) = TransportResult.failure errText) :
    WeatherForecaster.get_weather ⟨svc⟩ urlValid transport loc date_string =
      RustResult.err
        { code := ErrorCode.Internal, description := "Unable to make request. " ++ errText } := by
  unfold WeatherForecaster.get_weather
  simp [hparse, hurl, htrans]

/-- C6 witness: a connection-refused transport failure surfaces as an
`Internal` error embedding the transport error text. -/
theorem C6_witness :
    WeatherForecaster.get_weather ⟨stub_service⟩ (fun _ => true)
        (fun _ => TransportResult.failure "connection refused")
        stub_location "01.01.2000" =
      RustResult.err
        { code := ErrorCode.Internal,
          description := "Unable to make request. connection refused" } :=
  C6_transport_failure_internal stub_service (fun _ => true) _ stub_location
    "01.01.2000" ⟨2000, 1, 1⟩ "connection refused" (by decide) rfl rfl

/-- C9: when the adapter-built URL string is not structurally valid as a
URL, `get_weather` aborts with a panic carrying the offending URL rather
than returning any `ForecastError` through the error channel. -/
theorem C9_invalid_url_fatal
    (svc : ForecastEndService) (urlValid : String → Bool)
    (transport : String → TransportResult) (loc : Location)
    (date_string : String) (requested : NaiveDate)
    (hparse : NaiveDate.parse_mm_dd_yyyy date_string = some requested)
    (hurl : urlValid (svc.get_url loc) = false) :
    WeatherForecaster.get_weather ⟨svc⟩ urlValid transport loc date_string =
      RustResult.fatal ("There was a problem parsing the url: " ++ svc.get_url loc) := by
  unfold WeatherForecaster.get_weather
  simp [hparse, hurl]

/-- C9 witness: with a URL the URL parser rejects, the outcome is the
panic, not an error value. -/
theorem C9_witness :
    WeatherForecaster.get_weather ⟨stub_service⟩ (fun _ => false) stub_transport
      stub_location "01.01.2000" =
      RustResult.fatal "There was a problem parsing the url: http://stub/forecast" :=
  C9_invalid_url_fatal stub_service (fun _ => false) stub_transport stub_location
    "01.01.2000" ⟨2000, 1, 1⟩ (by decide) rfl

/-- C2 counterexample: a structurally valid OpenWeatherMap reply whose day
carries an empty `weather` array deserializes successfully and then makes
`handle_response` panic on `item.weather[0]` — the outcome is a thread
abort, not a returned `Internal` error. -/
theorem C2_counterexample :
    openweathermap.handle_response owm_empty_weather_body =
      RustResult.fatal "index out of bounds: the len is 0 but the index is 0" := rfl

/-- C2 (amended): for every reply body that fails to deserialize into the
adapter's reply schema (invalid JSON, missing field, wrong type), each
adapter's `handle_response` fails with an `Internal` error — never
`InvalidArgument`; the WeatherApi adapter has no outcome other than success
or that `Internal` error; but an OpenWeatherMap reply in which some day
has an empty `weather` array deserializes successfully and then panics
instead of returning an `Internal` error. -/
theorem C2_amended_structural_mismatch_internal :
    (∀ body : HttpBody, body.json.bind openweathermap.decode_reply = none →
        openweathermap.handle_response body =
          RustResult.err
            { code := ErrorCode.Internal,
              description := "Unable to process the response from OpenWeatherMap. " }) ∧
    (∀ body : HttpBody, body.json.bind weatherapi.decode_reply = none →
        weatherapi.handle_response body =
          RustResult.err
            { code := ErrorCode.Internal,
              description := "Unable to process the response from WeatherApi. " }) ∧
    (∀ body : HttpBody,
        weatherapi.handle_response body =
          RustResult.err
            { code := ErrorCode.Internal,
              description := "Unable to process the response from WeatherApi. " } ∨
        ∃ days : List weatherapi.DailyForecast,
          body.json.bind weatherapi.decode_reply = some days ∧
          weatherapi.handle_response body = RustResult.ok (days.map weatherapi.to_forecast)) ∧
    (∀ (body : HttpBody) (days : List openweathermap.Forecast),
        body.json.bind openweathermap.decode_reply = some days →
        (∃ x ∈ days, x.weather = []) →
        ∃ m, openweathermap.handle_response body = RustResult.fatal m) := by
  refine ⟨?_, ?_, ?_, ?_⟩
  · intro body h
    unfold openweathermap.handle_response
    rw [h]
  · intro body h
    unfold weatherapi.handle_response
    rw [h]
  · intro body
    match h : body.json.bind weatherapi.decode_reply with
    | none =>
      left
      unfold weatherapi.handle_response
      rw [h]
    | some days =>
      right
      exact ⟨days, rfl, by unfold weatherapi.handle_response; rw [h]⟩
  · intro body days h hempty
    rcases owm_collect_fatal days hempty with ⟨m, hm⟩
    exact ⟨m, by unfold openweathermap.handle_response; simp [h, hm]⟩

/-- C2 witness: a body that is not valid JSON yields the `Internal` error
from both adapters. -/
theorem C2_witness :
    openweathermap.handle_response malformed_body =
      RustResult.err
        { code := ErrorCode.Internal,
          description := "Unable to process the response from OpenWeatherMap. " } ∧
    weatherapi.handle_response malformed_body =
      RustResult.err
        { code := ErrorCode.Internal,
          description := "Unable to process the response from WeatherApi. " } :=
  ⟨C2_amended_structural_mismatch_internal.1 malformed_body rfl,
   C2_amended_structural_mismatch_internal.2.1 malformed_body rfl⟩

/-- C3: for every well-formed reply, each adapter yields one normalized
forecast per day entry, in order, under the provider-specific field
mapping; on the fixture payloads this gives the expected literal
timestamps, temperatures and condition strings — OpenWeatherMap joining
the first weather element as "<main>, <description>", WeatherApi passing
`day.condition.text` through unchanged. -/
theorem C3_parse_reply_field_mapping :
    (∀ (body : HttpBody) (days : List openweathermap.Forecast),
        body.json.bind openweathermap.decode_reply = some days →
        (∀ x ∈ days, x.weather ≠ []) →
        openweathermap.handle_response body =
          RustResult.ok (days.map openweathermap.to_forecast)) ∧
    (∀ (body : HttpBody) (days : List weatherapi.DailyForecast),
        body.json.bind weatherapi.decode_reply = some days →
        weatherapi.handle_response body =
          RustResult.ok (days.map weatherapi.to_forecast)) ∧
    owm_fixture_body.json.bind openweathermap.decode_reply = some owm_fixture_days ∧
    openweathermap.handle_response owm_fixture_body =
      RustResult.ok
        [{ dt := 946684800, min_t := 19.5, max_t := 20.5, avg_t := 20,
           condition := "Sky is clear, warm and good" },
         { dt := 946771200, min_t := 22.5, max_t := 23.5, avg_t := 23,
           condition := "Sky is clear, warm and good too" }] ∧
    wapi_fixture_body.json.bind weatherapi.decode_reply = some wapi_fixture_days ∧
    weatherapi.handle_response wapi_fixture_body =
      RustResult.ok
        [{ dt := 946684800, min_t := 19.5, max_t := 20.5, avg_t := 20,
           condition := "It\x27s warm and good!" },
         { dt := 946771200, min_t := 22.5, max_t := 23.5, avg_t := 23,
           condition := "It\x27s warm and good too!" }] := by
  refine ⟨?_, ?_, rfl, rfl, rfl, rfl⟩
  · intro body days h hne
    unfold openweathermap.handle_response
    simp [h, owm_collect_ok days hne]
  · intro body days h
    unfold weatherapi.handle_response
    rw [h]

/-- C3 witness: the general mapping theorem applied to the OpenWeatherMap
fixture. -/
theorem C3_witness :
    owm_fixture_body.json.bind openweathermap.decode_reply = some owm_fixture_days ∧
    openweathermap.handle_response owm_fixture_body =
      RustResult.ok (owm_fixture_days.map openweathermap.to_forecast) :=
  ⟨rfl,
   C3_parse_reply_field_mapping.1 owm_fixture_body owm_fixture_days rfl
     (by simp [owm_fixture_days])⟩

/-- C10 counterexample: a request whose location is absent but whose
provider name is unknown is answered with a typed `InvalidArgument` status,
not a panic — the handler checks the provider before unwrapping the
location. -/
theorem C10_counterexample :
    WeatherServiceImpl.get_weather "OWMKEY" "WAPIKEY" (fun _ => true) stub_transport
      { provider := "NotAProvider", location := none, date := "01.01.2000" } =
      RustResult.err
        { code := Code.InvalidArgument, message := "Invalid weather provider passed." } := rfl

/-- C10 (amended): for every incoming request whose provider name parses to
a known service and whose location field is absent, the handler panics on
`params.location.unwrap()` instead of returning a typed error — a present
location is an unchecked precondition once the provider is resolved. -/
theorem C10_amended_missing_location_fatal
    (owmKey wapiKey : String) (urlValid : String → Bool)
    (transport : String → TransportResult) (params : WeatherQueryParams)
    (service : AvailableService)
    (hprov : AvailableService.from_str params.provider = some service)
    (hloc : params.location = none) :
    WeatherServiceImpl.get_weather owmKey wapiKey urlValid transport params =
      RustResult.fatal "called `Option::unwrap()` on a `None` value" := by
  unfold WeatherServiceImpl.get_weather
  rw [hprov, hloc]

/-- C10 witness: a valid provider with an absent location panics, for any
date text and before any transport activity is interpreted. -/
theorem C10_witness :
    WeatherServiceImpl.get_weather "OWMKEY" "WAPIKEY" (fun _ => true) stub_transport
      { provider := "OpenWeatherMap", location := none, date := "2000.01.01" } =
      RustResult.fatal "called `Option::unwrap()` on a `None` value" :=
  C10_amended_missing_location_fatal "OWMKEY" "WAPIKEY" (fun _ => true) stub_transport
    { provider := "OpenWeatherMap", location := none, date := "2000.01.01" }
    AvailableService.OpenWeatherMap rfl rfl
